import Mathlib

/-!
Verification of the error-handling tail of the Express request pipeline in
`src/config/express.js` of `iamsohel/node-rest-starter`: the error-normalization
middleware, the 404 middleware, and the terminal error handler.

JavaScript `undefined` is modelled by `Option`; the JSON body produced by
`res.json` is modelled as an association list of fields, where a field whose
value is `undefined` is dropped (as `JSON.stringify` does).
-/

/-- A JSON value as it appears in the error-response body: either a string
(`message`, or a stack trace string in dev mode) or the empty object `{}`
used for the `stack` field outside dev mode. -/
inductive JVal where
  | str (s : String)
  | emptyObj
deriving DecidableEq, Repr

/-- Whether a body field value is empty: the empty object, or the empty string. -/
def JVal.isEmptyVal : JVal → Bool
  | .str s => s = ""
  | .emptyObj => true

/-- Modelled from the spec: the uniform error shape of `src/libs/APIError`
(not under `src/`): attributes `message` (human-readable string), `status`
(HTTP status code), `isPublic` (whether `message` may be shown to the caller),
optional `stack` (diagnostic trace). A JS `Error` may lack a `message`, so it
is an `Option`. -/
structure APIError where
  message : Option String
  status : Nat
  isPublic : Bool
  stack : Option String
deriving DecidableEq, Repr

/-- Modelled from the spec: the `APIError` constructor of `src/libs/APIError`
(not under `src/`). Per the spec, a wrapped error keeps its message and its
`status` defaults to the "Internal Server Error" status (500) when absent,
its `isPublic` flag defaults to false when absent. `stack` is the trace
captured at the construction site. -/
def APIError.make (message : Option String) (status : Option Nat)
    (isPublic : Option Bool) (stack : Option String) : APIError :=
  { message := message
    status := status.getD 500
    isPublic := isPublic.getD false
    stack := stack }

/-- One field-error group of an `express-validation` `ValidationError`:
`error.messages` is an array of per-field message strings. -/
structure FieldError where
  messages : List String
deriving DecidableEq, Repr

/-- An `express-validation` `ValidationError`: `err.errors` is an array of
field-error groups and `err.status` is its HTTP status code. -/
structure ValidationErr where
  errors : List FieldError
  status : Nat
deriving DecidableEq, Repr

/-- An arbitrary other thrown error reaching the normalization middleware:
any of `message`, `status`, `isPublic` may be `undefined`. -/
structure PlainErr where
  message : Option String
  status : Option Nat
  isPublic : Option Bool
  stack : Option String
deriving DecidableEq, Repr

/-- The heterogeneous error value dispatched on by `instanceof` in the
normalization middleware: a `validation.ValidationError`, an `APIError`,
or anything else. -/
inductive ErrValue where
  | validation (v : ValidationErr)
  | api (e : APIError)
  | plain (e : PlainErr)
deriving DecidableEq, Repr

/-- `err.errors.map(error => error.messages.join('. ')).join(' and ')` from
the `ValidationError` branch of the normalization middleware. -/
def unifiedErrorMessage (v : ValidationErr) : String :=
  String.intercalate " and " (v.errors.map (fun error => String.intercalate ". " error.messages))

/-- The error-normalization middleware of `src/config/express.js`: a
`ValidationError` is flattened into a public `APIError` with its status; a
value that is not an `APIError` is wrapped via the `APIError` constructor;
an `APIError` is passed through unchanged. `capturedStack` is the stack
trace that `new APIError(...)` captures at the construction site. -/
def normalizeErr (capturedStack : Option String) : ErrValue → APIError
  | .validation v =>
      APIError.make (some (unifiedErrorMessage v)) (some v.status) (some true) capturedStack
  | .plain e => APIError.make e.message e.status e.isPublic capturedStack
  | .api e => e

/-- The 404 middleware of `src/config/express.js`:
`new APIError('API not found!', httpStatus.NOT_FOUND)` — note the third
(`isPublic`) argument is omitted. -/
def notFoundError (capturedStack : Option String) : APIError :=
  APIError.make (some "API not found!") (some 404) none capturedStack

/-- The `http-status` package's code-to-text table: `httpStatus[n]` yields
the standard textual name of status `n`, or `undefined` when `n` is not a
standard code. -/
def httpStatusText : Nat → Option String
  | 100 => some "Continue"
  | 101 => some "Switching Protocols"
  | 102 => some "Processing"
  | 103 => some "Early Hints"
  | 200 => some "OK"
  | 201 => some "Created"
  | 202 => some "Accepted"
  | 203 => some "Non-Authoritative Information"
  | 204 => some "No Content"
  | 205 => some "Reset Content"
  | 206 => some "Partial Content"
  | 207 => some "Multi-Status"
  | 208 => some "Already Reported"
  | 226 => some "IM Used"
  | 300 => some "Multiple Choices"
  | 301 => some "Moved Permanently"
  | 302 => some "Found"
  | 303 => some "See Other"
  | 304 => some "Not Modified"
  | 305 => some "Use Proxy"
  | 307 => some "Temporary Redirect"
  | 308 => some "Permanent Redirect"
  | 400 => some "Bad Request"
  | 401 => some "Unauthorized"
  | 402 => some "Payment Required"
  | 403 => some "Forbidden"
  | 404 => some "Not Found"
  | 405 => some "Method Not Allowed"
  | 406 => some "Not Acceptable"
  | 407 => some "Proxy Authentication Required"
  | 408 => some "Request Timeout"
  | 409 => some "Conflict"
  | 410 => some "Gone"
  | 411 => some "Length Required"
  | 412 => some "Precondition Failed"
  | 413 => some "Payload Too Large"
  | 414 => some "URI Too Long"
  | 415 => some "Unsupported Media Type"
  | 416 => some "Range Not Satisfiable"
  | 417 => some "Expectation Failed"
  | 418 => some "I\x27m a Teapot"
  | 421 => some "Misdirected Request"
  | 422 => some "Unprocessable Entity"
  | 423 => some "Locked"
  | 424 => some "Failed Dependency"
  | 425 => some "Too Early"
  | 426 => some "Upgrade Required"
  | 428 => some "Precondition Required"
  | 429 => some "Too Many Requests"
  | 431 => some "Request Header Fields Too Large"
  | 451 => some "Unavailable For Legal Reasons"
  | 500 => some "Internal Server Error"
  | 501 => some "Not Implemented"
  | 502 => some "Bad Gateway"
  | 503 => some "Service Unavailable"
  | 504 => some "Gateway Timeout"
  | 505 => some "HTTP Version Not Supported"
  | 506 => some "Variant Also Negotiates"
  | 507 => some "Insufficient Storage"
  | 508 => some "Loop Detected"
  | 510 => some "Not Extended"
  | 511 => some "Network Authentication Required"
  | _ => none

/-- The value of the `message` field of the terminal handler's body:
`err.isPublic ? err.message : httpStatus[err.status]` — `undefined` (`none`)
when a public error has no message or the status has no standard text. -/
def messageVal (err : APIError) : Option String :=
  if err.isPublic then err.message else httpStatusText err.status

/-- The value of the `stack` field of the terminal handler's body:
`env.nodeEnv === 'dev' ? err.stack : {}`. -/
def stackVal (err : APIError) (nodeEnv : String) : Option JVal :=
  if nodeEnv = "dev" then err.stack.map JVal.str else some JVal.emptyObj

/-- A JSON-object field with an `undefined` value is dropped by
`JSON.stringify` (hence by `res.json`); a defined value yields one field. -/
def optField (key : String) : Option JVal → List (String × JVal)
  | some v => [(key, v)]
  | none => []

/-- The serialized HTTP error response: status code and the list of
top-level JSON body fields, in order. -/
structure Response where
  status : Nat
  body : List (String × JVal)
deriving DecidableEq, Repr

/-- The terminal error handler of `src/config/express.js`:
`res.status(err.status).json({ message: ..., stack: ... })`. -/
def errorHandler (err : APIError) (nodeEnv : String) : Response :=
  { status := err.status
    body := optField "message" ((messageVal err).map JVal.str)
              ++ optField "stack" (stackVal err nodeEnv) }

/-- The outcome of one middleware stage: either it forwards an error to the
next error-handling stage (`next(err)`) or it writes the HTTP response. -/
inductive Outcome where
  | forwardErr (e : APIError)
  | respond (r : Response)
deriving DecidableEq, Repr

/-- The normalization middleware as a stage: it always forwards. -/
def normalizeMw (capturedStack : Option String) (e : ErrValue) : Outcome :=
  .forwardErr (normalizeErr capturedStack e)

/-- The 404 middleware as a stage: it always forwards. -/
def notFoundMw (capturedStack : Option String) : Outcome :=
  .forwardErr (notFoundError capturedStack)

/-- The terminal error handler as a stage: it writes the response and never
calls `next`. -/
def errorHandlerMw (err : APIError) (nodeEnv : String) : Outcome :=
  .respond (errorHandler err nodeEnv)

/-- The response to a request on an unmatched route: the 404 middleware's
error (which, being produced after the normalization middleware in the
chain, reaches the terminal handler directly). -/
def unmatchedRouteResponse (nodeEnv : String) (capturedStack : Option String) : Response :=
  errorHandler (notFoundError capturedStack) nodeEnv

/-- The wire shape claimed by the spec for the body: exactly two top-level
fields, `message` holding a string and `stack`, in that order. -/
def wireShape (r : Response) : Prop :=
  ∃ m st, r.body = [("message", JVal.str m), ("stack", st)]

theorem lookup_message_eq (err : APIError) (nodeEnv : String) :
    (errorHandler err nodeEnv).body.lookup "message" = (messageVal err).map JVal.str := by
  unfold errorHandler optField
  cases messageVal err <;> cases h : stackVal err nodeEnv <;> simp_all [List.lookup]

theorem stackVal_isSome (err : APIError) (nodeEnv : String) :
    (stackVal err nodeEnv).isSome = true ∨ (nodeEnv = "dev" ∧ err.stack = none) := by
  unfold stackVal
  by_cases h : nodeEnv = "dev"
  · cases hs : err.stack <;> simp [h, hs]
  · simp [h]

theorem lookup_stack_eq (err : APIError) (nodeEnv : String) :
    (errorHandler err nodeEnv).body.lookup "stack" = stackVal err nodeEnv := by
  unfold errorHandler optField
  cases messageVal err <;> cases h : stackVal err nodeEnv <;> simp_all [List.lookup]

/-- The validation message the claim describes: per-field messages joined by
`"."` (no space) within a group, groups joined by `" and "`. Stated from the
claim's words, to be compared with `unifiedErrorMessage` from the source. -/
def claimedValidationMessage (v : ValidationErr) : String :=
  String.intercalate " and " (v.errors.map (fun error => String.intercalate "." error.messages))

/-- C1: the claim as stated is false: the source joins a group's messages
with `". "` (period and space), not `"."`. At the validation failure with one
group carrying messages `["a", "b"]` the normalized message is `"a. b"`,
while the claim predicts `"a.b"`. -/
theorem c1_counterexample :
    (normalizeErr none (.validation ⟨[⟨["a", "b"]⟩], 400⟩)).message = some "a. b" ∧
    claimedValidationMessage ⟨[⟨["a", "b"]⟩], 400⟩ = "a.b" ∧
    (normalizeErr none (.validation ⟨[⟨["a", "b"]⟩], 400⟩)).message ≠
      some (claimedValidationMessage ⟨[⟨["a", "b"]⟩], 400⟩) := by
  refine ⟨rfl, rfl, by decide⟩

/-- C1 (amended): for every validation failure, the normalized error's
message is the per-field messages of each group joined by `". "` (period
followed by a space) within a group, the groups joined by `" and "`; its
status equals the validation failure's status and its `isPublic` flag is
true. -/
theorem c1_amended (v : ValidationErr) (stk : Option String) :
    (normalizeErr stk (.validation v)).message =
      some (String.intercalate " and "
        (v.errors.map (fun g => String.intercalate ". " g.messages))) ∧
    (normalizeErr stk (.validation v)).status = v.status ∧
    (normalizeErr stk (.validation v)).isPublic = true :=
  ⟨rfl, rfl, rfl⟩

/-- C2: the claim as stated is false: the 404 middleware's `APIError` is
built without the `isPublic` argument, so it is not public and the terminal
handler replaces its message `"API not found!"` by the standard status text
`"Not Found"`. The status is 404 as claimed. -/
theorem c2_counterexample :
    (unmatchedRouteResponse "prod" none).status = 404 ∧
    (unmatchedRouteResponse "prod" none).body.lookup "message" = some (JVal.str "Not Found") ∧
    (unmatchedRouteResponse "prod" none).body.lookup "message" ≠
      some (JVal.str "API not found!") := by
  refine ⟨rfl, ?_, ?_⟩
  · rw [show unmatchedRouteResponse "prod" none
        = errorHandler (notFoundError none) "prod" from rfl, lookup_message_eq]
    rfl
  · rw [show unmatchedRouteResponse "prod" none
        = errorHandler (notFoundError none) "prod" from rfl, lookup_message_eq]
    decide

/-- C2 (amended): for every request on an unmatched route, in every mode, the
response status is 404 and the body's `message` field is `"Not Found"` — the
standard status text, because the synthesized not-found error is not public,
so its internal message `"API not found!"` is not exposed. -/
theorem c2_amended (nodeEnv : String) (stk : Option String) :
    (unmatchedRouteResponse nodeEnv stk).status = 404 ∧
    (unmatchedRouteResponse nodeEnv stk).body.lookup "message" = some (JVal.str "Not Found") ∧
    (notFoundError stk).message = some "API not found!" := by
  refine ⟨rfl, ?_, rfl⟩
  rw [show unmatchedRouteResponse nodeEnv stk
      = errorHandler (notFoundError stk) nodeEnv from rfl, lookup_message_eq]
  rfl

/-- C3: the normalization middleware passes an error that is already an
`APIError` through unchanged; in particular it is idempotent: normalizing
the output of normalization yields the identical uniform error. -/
theorem c3_passthrough_idempotent (e : APIError) (v : ErrValue) (stk stk2 : Option String) :
    normalizeErr stk (.api e) = e ∧
    normalizeErr stk2 (.api (normalizeErr stk v)) = normalizeErr stk v :=
  ⟨rfl, rfl⟩

/-- C4: an error that is neither a validation failure nor an `APIError` is
wrapped into a uniform error keeping its message, its status (500 when
absent) and its `isPublic` flag (false when absent). -/
theorem c4_wrap_defaults (e : PlainErr) (stk : Option String) :
    (normalizeErr stk (.plain e)).message = e.message ∧
    (e.status = none → (normalizeErr stk (.plain e)).status = 500) ∧
    (∀ s, e.status = some s → (normalizeErr stk (.plain e)).status = s) ∧
    (e.isPublic = none → (normalizeErr stk (.plain e)).isPublic = false) ∧
    (∀ b, e.isPublic = some b → (normalizeErr stk (.plain e)).isPublic = b) := by
  refine ⟨rfl, ?_, ?_, ?_, ?_⟩
  · intro h; simp [normalizeErr, APIError.make, h]
  · intro s h; simp [normalizeErr, APIError.make, h]
  · intro h; simp [normalizeErr, APIError.make, h]
  · intro b h; simp [normalizeErr, APIError.make, h]

/-- C5: for every non-public error with status 500, the terminal handler's
body `message` is the standard text for 500, `"Internal Server Error"`, and
whenever the error's raw internal message differs from that text, the body
message is not the raw message. -/
theorem c5_nonpublic_500_message (err : APIError) (nodeEnv : String)
    (hpub : err.isPublic = false) (hstat : err.status = 500) :
    (errorHandler err nodeEnv).body.lookup "message"
      = some (JVal.str "Internal Server Error") ∧
    ∀ raw, err.message = some raw → raw ≠ "Internal Server Error" →
      (errorHandler err nodeEnv).body.lookup "message" ≠ some (JVal.str raw) := by
  have hm : messageVal err = some "Internal Server Error" := by
    unfold messageVal
    rw [hpub, hstat]
    rfl
  refine ⟨?_, ?_⟩
  · rw [lookup_message_eq, hm]
    rfl
  · intro raw hraw hne hc
    rw [lookup_message_eq, hm] at hc
    exact hne (JVal.str.inj (Option.some.inj hc)).symm

theorem c5_witness :
    (errorHandler ⟨some "secret detail", 500, false, none⟩ "prod").body.lookup "message"
      = some (JVal.str "Internal Server Error") ∧
    (errorHandler ⟨some "secret detail", 500, false, none⟩ "prod").body.lookup "message"
      ≠ some (JVal.str "secret detail") :=
  ⟨(c5_nonpublic_500_message ⟨some "secret detail", 500, false, none⟩ "prod" rfl rfl).1,
   (c5_nonpublic_500_message ⟨some "secret detail", 500, false, none⟩ "prod" rfl rfl).2
     "secret detail" rfl (by decide)⟩

/-- C6: in dev mode the body's `stack` field is the originating error's stack
trace — non-empty whenever that trace is non-empty — and in every other mode
the `stack` field is the empty object, whatever the error. -/
theorem c6_stack_dev_gating (err : APIError) (nodeEnv : String) :
    (∀ s, err.stack = some s → s ≠ "" →
      (errorHandler err "dev").body.lookup "stack" = some (JVal.str s) ∧
      (JVal.str s).isEmptyVal = false) ∧
    (nodeEnv ≠ "dev" →
      (errorHandler err nodeEnv).body.lookup "stack" = some JVal.emptyObj ∧
      JVal.emptyObj.isEmptyVal = true) := by
  constructor
  · intro s hs hne
    rw [lookup_stack_eq]
    exact ⟨by simp [stackVal, hs], by simp [JVal.isEmptyVal, hne]⟩
  · intro h
    rw [lookup_stack_eq]
    exact ⟨by simp [stackVal, h], rfl⟩

theorem c6_witness :
    (errorHandler ⟨some "m", 500, false, some "Error: boom at line 3"⟩ "dev").body.lookup "stack"
      = some (JVal.str "Error: boom at line 3") ∧
    (errorHandler ⟨some "m", 500, false, some "Error: boom at line 3"⟩ "prod").body.lookup "stack"
      = some JVal.emptyObj :=
  ⟨((c6_stack_dev_gating ⟨some "m", 500, false, some "Error: boom at line 3"⟩ "prod").1
      "Error: boom at line 3" rfl (by decide)).1,
   ((c6_stack_dev_gating ⟨some "m", 500, false, some "Error: boom at line 3"⟩ "prod").2
      (by decide)).1⟩

/-- C7: the claim as stated is false: a non-public error whose status (here
299) has no standard status text yields `httpStatus[err.status] = undefined`,
so the serialized body drops the `message` field and has only the `stack`
field — not the claimed two-field shape. -/
theorem c7_counterexample :
    (errorHandler ⟨some "boom", 299, false, none⟩ "prod").body = [("stack", JVal.emptyObj)] ∧
    ¬ wireShape (errorHandler ⟨some "boom", 299, false, none⟩ "prod") := by
  refine ⟨by decide, ?_⟩
  rintro ⟨m, st, hbody⟩
  have hb : (errorHandler ⟨some "boom", 299, false, none⟩ "prod").body
      = [("stack", JVal.emptyObj)] := by decide
  rw [hb] at hbody
  simp at hbody

/-- C7 (amended): for every error whose message resolves to a string (public
with a present message, or non-public with a status in the status-text
table) and whose stack field value is defined (any error outside dev mode; in
dev mode, one carrying a stack), the response body is exactly the two fields
`message` (a string) and `stack`, and the HTTP status equals the error's
status. -/
theorem c7_amended (err : APIError) (nodeEnv : String)
    (hmsg : (err.isPublic = true ∧ err.message.isSome) ∨
            (err.isPublic = false ∧ (httpStatusText err.status).isSome))
    (hstk : nodeEnv ≠ "dev" ∨ err.stack.isSome) :
    wireShape (errorHandler err nodeEnv) ∧ (errorHandler err nodeEnv).status = err.status := by
  obtain ⟨m, hm⟩ : ∃ m, messageVal err = some m := by
    rcases hmsg with ⟨hp, hs⟩ | ⟨hp, hs⟩ <;> rcases Option.isSome_iff_exists.mp hs with ⟨m, hmm⟩
    · exact ⟨m, by simp [messageVal, hp, hmm]⟩
    · exact ⟨m, by simp [messageVal, hp, hmm]⟩
  obtain ⟨jv, hjv⟩ : ∃ jv, stackVal err nodeEnv = some jv := by
    by_cases hd : nodeEnv = "dev"
    · rcases hstk with h | h
      · exact absurd hd h
      · rcases Option.isSome_iff_exists.mp h with ⟨s, hs⟩
        exact ⟨JVal.str s, by simp [stackVal, hd, hs]⟩
    · exact ⟨JVal.emptyObj, by simp [stackVal, hd]⟩
  refine ⟨⟨m, jv, ?_⟩, rfl⟩
  simp [errorHandler, optField, hm, hjv]

theorem c7_amended_witness :
    wireShape (errorHandler ⟨some "oops", 500, false, none⟩ "prod") ∧
    (errorHandler ⟨some "oops", 500, false, none⟩ "prod").status = 500 :=
  c7_amended ⟨some "oops", 500, false, none⟩ "prod"
    (Or.inr ⟨rfl, by decide⟩) (Or.inl (by decide))

/-- C8: the terminal error handler is terminal: for every error and mode it
writes the response and never forwards to a further stage via `next`. -/
theorem c8_terminal_never_forwards (err : APIError) (nodeEnv : String) :
    errorHandlerMw err nodeEnv = .respond (errorHandler err nodeEnv) ∧
    ∀ e, errorHandlerMw err nodeEnv ≠ .forwardErr e := by
  refine ⟨rfl, fun e h => ?_⟩
  simp [errorHandlerMw] at h

/-- C9: there is a non-public error whose status (here 599) is not in the
status-text table, for which the body's `message` value is `undefined`; the
serialized response therefore drops the `message` field and does not have
the two-field wire shape. -/
theorem c9_no_status_text :
    ∃ err : APIError, err.isPublic = false ∧ httpStatusText err.status = none ∧
      (errorHandler err "prod").body.lookup "message" = none ∧
      ¬ wireShape (errorHandler err "prod") := by
  refine ⟨⟨some "internal detail", 599, false, none⟩, rfl, by decide, by decide, ?_⟩
  rintro ⟨m, st, hbody⟩
  have hb : (errorHandler ⟨some "internal detail", 599, false, none⟩ "prod").body
      = [("stack", JVal.emptyObj)] := by decide
  rw [hb] at hbody
  simp at hbody

/-- C10: a validation failure with no field-error groups normalizes to a
public uniform error whose message is the empty string, so the response's
`message` field is the empty string. -/
theorem c10_empty_validation (status : Nat) (stk : Option String) (nodeEnv : String) :
    normalizeErr stk (.validation ⟨[], status⟩) =
      { message := some "", status := status, isPublic := true, stack := stk } ∧
    (errorHandler (normalizeErr stk (.validation ⟨[], status⟩)) nodeEnv).body.lookup "message"
      = some (JVal.str "") := by
  refine ⟨rfl, ?_⟩
  rw [lookup_message_eq]
  rfl
